import Mathlib

/-!
Verification of the Seer similarity-grouping gate and orchestration
(`src/sentry/grouping/ingest/seer.py`).

The Python module is embedded shallowly.  Effects are made explicit data:
`metrics.incr` calls become `MetricCounter` values returned by each function,
the rate limiter's shared counters become an association list threaded through
the checks, `sentry_sdk.capture_exception` becomes a list of captured errors,
and each network request handed to `get_similarity_data_from_seer` is logged in
the outcome.  External collaborators that live outside the reviewed file
(feature flags, options, the killswitch predicate, the circuit breaker's
current state, the rate-limit backend's quota decision, the Seer client, the
group store, stacktrace rendering) are fields of an `Env` record, universally
quantified in every theorem.
-/

namespace Seer

/-- A grouping-variant descriptor: each variant in `CalculatedHashes.variants`
carries a `type` tag (e.g. "custom-fingerprint", "built-in-fingerprint"). -/
structure FingerprintVariant where
  type : String
deriving Repr, DecidableEq

/-- The `CalculatedHashes` input: the ordered hash list plus the variant map
(name to variant), the Python dict modelled as an association list. -/
structure CalculatedHashes where
  hashes : List String
  variants : List (String × FingerprintVariant)
deriving Repr, DecidableEq

/-- One Seer similar-issue candidate (`SeerSimilarIssueData`): the parent group
id plus its score; `asdict` serialization is modelled as the record itself. -/
structure SimilarIssueData where
  parent_group_id : Nat
  score : Int
deriving Repr, DecidableEq

/-- The value written under the event's `seer_similarity` metadata key:
the serialized candidate list plus the fixed model-version tag. -/
structure SimilarityMetadata where
  results : List SimilarIssueData
  similarity_model_version : String
deriving Repr, DecidableEq

/-- The slice of an ingested `Event` this module reads or writes:
`event.data["fingerprint"]` is `fingerprint`, the `type` entries of
`event.data["exception"]["values"]` are `exception_types`, and
`event.data["seer_similarity"]` is the mutable `seer_similarity` field. -/
structure Event where
  event_id : String
  project_id : Nat
  title : String
  fingerprint : List String
  exception_types : List (Option String)
  seer_similarity : Option SimilarityMetadata
deriving Repr, DecidableEq

/-- An issue group, reduced to the identifier the lookup uses. -/
structure Group where
  id : Nat
deriving Repr, DecidableEq

/-- A rate-limit option value `{limit, window}`. -/
structure RateLimitOptions where
  limit : Nat
  window : Nat
deriving Repr, DecidableEq

/-- The request dict sent to Seer (`SimilarIssuesEmbeddingsRequest`). -/
structure SimilarIssuesEmbeddingsRequest where
  event_id : String
  hash : String
  project_id : Nat
  stacktrace : String
  message : String
  exception_type : Option String
  k : Nat
  referrer : String
deriving Repr, DecidableEq

/-- One `metrics.incr` emission; only the tags the spec's contract names are
kept (`call_made` and `blocker`, absent on counters that do not set them). -/
structure MetricCounter where
  name : String
  call_made : Option Bool
  blocker : Option String
deriving Repr, DecidableEq

/-- The exceptions that can escape `get_seer_similar_issues` into the caller's
`try` block: the `hashes[0]` index error and any error the Seer client
raises. -/
inductive SeerCallError where
  | index_error : SeerCallError
  | client_error : String → SeerCallError
deriving Repr, DecidableEq

/-- The rate-limit backend's shared per-key counters. -/
abbrev Counters := List (String × Nat)

/-- External collaborators of the module, injected as capabilities. -/
structure Env where
  /-- The value of `features.has("projects:similarity-embeddings-grouping", project)`. -/
  has_seer_grouping_flag : Nat → Bool
  /-- The value of `project.get_option("sentry:similarity_backfill_completed")`. -/
  backfill_completed : Nat → Bool
  /-- The predicate `event_content_is_seer_eligible(event)`. -/
  content_is_seer_eligible : Event → Bool
  /-- The predicate `killswitch_enabled(project_id, event)`. -/
  killswitch_enabled : Nat → Event → Bool
  /-- The circuit breaker's current `should_allow_request()` for the fixed
  process-wide key (this module only reads breaker state). -/
  circuit_allows_request : Bool
  /-- The option `seer.similarity.global-rate-limit`. -/
  global_ratelimit : RateLimitOptions
  /-- The option `seer.similarity.per-project-rate-limit`. -/
  per_project_ratelimit : RateLimitOptions
  /-- The backend's quota decision for `is_limited(key, limit, window)`, as a
  function of the key, the config and the key's current counter value. -/
  is_limited_decision : String → RateLimitOptions → Nat → Bool
  /-- The Seer client `get_similarity_data_from_seer`; an `Except.error` is an
  exception it raises. -/
  get_similarity_data : SimilarIssuesEmbeddingsRequest → Except String (List SimilarIssueData)
  /-- The group store: `Group.objects.filter(id=pk).first()`. -/
  group_by_id : Nat → Option Group
  /-- `get_stacktrace_string(get_grouping_info_from_variants(variants))`. -/
  stacktrace_from_variants : List (String × FingerprintVariant) → String
  /-- The constant `SEER_SIMILARITY_MODEL_VERSION` from settings. -/
  similarity_model_version : String

/-- The fingerprint token `\x7b\x7b default \x7d\x7d` marking default grouping. -/
def defaultSentinel : String := "\x7b\x7b default \x7d\x7d"

/-- The global rate-limit key `seer:similarity:global-limit`. -/
def globalLimitKey : String := "seer:similarity:global-limit"

/-- The per-project rate-limit key `seer:similarity:project-<id>-limit`. -/
def projectLimitKey (project_id : Nat) : String :=
  "seer:similarity:project-" ++ toString project_id ++ "-limit"

/-- Current counter value for a key (0 when the key is fresh). -/
def getCount : Counters → String → Nat
  | [], _ => 0
  | (k, n) :: rest, key => if k = key then n else getCount rest key

/-- Advance the counter for a key by one. -/
def bumpCount : Counters → String → Counters
  | [], key => [(key, 1)]
  | (k, n) :: rest, key =>
      if k = key then (k, n + 1) :: rest else (k, n) :: bumpCount rest key

/-- Python `dict.get` on the variant map. -/
def dictGet : List (String × FingerprintVariant) → String → Option FingerprintVariant
  | [], _ => none
  | (k, v) :: rest, key => if k = key then some v else dictGet rest key

/-- Modelled from the spec: `ratelimiter.backend.is_limited(key, limit, window)`
(the backend is not among the reviewed files) — a counting window limiter that
atomically increments the shared counter for `key` and reports whether the
quota is exceeded; the quota decision itself stays abstract in `Env`. -/
def is_limited (env : Env) (key : String) (cfg : RateLimitOptions) (ctrs : Counters) :
    Bool × Counters :=
  (env.is_limited_decision key cfg (getCount ctrs key), bumpCount ctrs key)

/-- Modelled from the spec: `filter_null_from_event_title` (in
`sentry.seer.similarity.utils`, not among the reviewed files) — the event
title with null bytes stripped. -/
def filter_null_from_event_title (title : String) : String :=
  String.mk (title.data.filter (fun c => c ≠ Char.ofNat 0))

/-- `get_path(event.data, "exception", "values", -1, "type")`: the `type` of
the last exception value, `none` when the list is empty or the entry has no
type. -/
def get_exception_type (e : Event) : Option String :=
  (e.exception_types.getLast?).join

/-- `_project_has_similarity_grouping_enabled`: feature flag OR the
backfill-completed project option. -/
def project_has_similarity_grouping_enabled (env : Env) (project_id : Nat) : Bool :=
  env.has_seer_grouping_flag project_id || env.backfill_completed project_id

/-- `_has_customized_fingerprint`: whether the event's fingerprint is
customized, together with the metrics the check emits. -/
def has_customized_fingerprint (e : Event) (ph : CalculatedHashes) :
    Bool × List MetricCounter :=
  if defaultSentinel ∈ e.fingerprint then
    if e.fingerprint.length = 1 then
      (false, [])
    else
      (true, [{ name := "grouping.similarity.did_call_seer",
                call_made := some false, blocker := some "hybrid-fingerprint" }])
  else
    match (dictGet ph.variants "custom-fingerprint").orElse
        (fun _ => dictGet ph.variants "built-in-fingerprint") with
    | some fingerprint_variant =>
        (true, [{ name := "grouping.similarity.did_call_seer",
                  call_made := some false, blocker := some fingerprint_variant.type }])
    | none => (false, [])

/-- `_circuit_breaker_broken`: reads the breaker state for the fixed key and
emits its metrics when the circuit is broken. -/
def circuit_breaker_broken (env : Env) (e : Event) : Bool × List MetricCounter :=
  let circuit_broken := !env.circuit_allows_request
  if circuit_broken then
    (true, [{ name := "grouping.similarity.broken_circuit_breaker",
              call_made := none, blocker := none },
            { name := "grouping.similarity.did_call_seer",
              call_made := some false, blocker := some "circuit-breaker" }])
  else
    (false, [])

/-- `_ratelimiting_enabled`: checks the global scope first, then (only when the
global scope is not limited) the per-project scope; each scope's counter
advances exactly when that scope is consulted. -/
def ratelimiting_enabled (env : Env) (e : Event) (ctrs : Counters) :
    Bool × List MetricCounter × Counters :=
  let globalCheck := is_limited env globalLimitKey env.global_ratelimit ctrs
  if globalCheck.1 then
    (true,
     [{ name := "grouping.similarity.global_ratelimit_hit",
        call_made := none, blocker := none },
      { name := "grouping.similarity.did_call_seer",
        call_made := some false, blocker := some "global-rate-limit" }],
     globalCheck.2)
  else
    let projectCheck :=
      is_limited env (projectLimitKey e.project_id) env.per_project_ratelimit globalCheck.2
    if projectCheck.1 then
      (true,
       [{ name := "grouping.similarity.project_ratelimit_hit",
          call_made := none, blocker := none },
        { name := "grouping.similarity.did_call_seer",
          call_made := some false, blocker := some "project-rate-limit" }],
       projectCheck.2)
    else
      (false, [], projectCheck.2)

/-- `should_call_seer_for_grouping`: the gate decision, plus the metrics it
emits and the rate-limit counters after it.  The checks run in source order,
short-circuiting: enablement, fingerprint, content eligibility, then the
`or`-chain killswitch / circuit breaker / rate limit (the rate-limit check is
deliberately last because it advances counters). -/
def should_call_seer_for_grouping (env : Env) (e : Event) (ph : CalculatedHashes)
    (ctrs : Counters) : Bool × List MetricCounter × Counters :=
  if project_has_similarity_grouping_enabled env e.project_id then
    let fingerprintCheck := has_customized_fingerprint e ph
    if fingerprintCheck.1 then
      (false, fingerprintCheck.2, ctrs)
    else if env.content_is_seer_eligible e then
      if env.killswitch_enabled e.project_id e then
        (false, fingerprintCheck.2, ctrs)
      else
        let breakerCheck := circuit_breaker_broken env e
        if breakerCheck.1 then
          (false, fingerprintCheck.2 ++ breakerCheck.2, ctrs)
        else
          let rlCheck := ratelimiting_enabled env e ctrs
          if rlCheck.1 then
            (false, fingerprintCheck.2 ++ breakerCheck.2 ++ rlCheck.2.1, rlCheck.2.2)
          else
            (true, fingerprintCheck.2 ++ breakerCheck.2 ++ rlCheck.2.1, rlCheck.2.2)
    else
      (false, fingerprintCheck.2, ctrs)
  else
    (false, [], ctrs)

/-- The request `get_seer_similar_issues` assembles; `hashes[0]` on an empty
hash list is the index error. -/
def build_similar_issues_request (env : Env) (e : Event) (ph : CalculatedHashes)
    (num_neighbors : Nat) : Except SeerCallError SimilarIssuesEmbeddingsRequest :=
  match ph.hashes with
  | [] => Except.error SeerCallError.index_error
  | event_hash :: _ =>
      Except.ok
        { event_id := e.event_id
          hash := event_hash
          project_id := e.project_id
          stacktrace := env.stacktrace_from_variants ph.variants
          message := filter_null_from_event_title e.title
          exception_type := get_exception_type e
          k := num_neighbors
          referrer := "ingest" }

/-- `get_seer_similar_issues`: builds the request, calls the Seer client, and
on success returns the metadata (full result list plus model-version tag) and
the group found for the best candidate's `parent_group_id` (none when the
candidate list is empty or the lookup misses).  The second component logs the
request actually handed to the client; exceptions propagate as `Except.error`. -/
def get_seer_similar_issues (env : Env) (e : Event) (ph : CalculatedHashes)
    (num_neighbors : Nat) :
    Except SeerCallError (SimilarityMetadata × Option Group) ×
      List SimilarIssuesEmbeddingsRequest :=
  match build_similar_issues_request env e ph num_neighbors with
  | Except.error err => (Except.error err, [])
  | Except.ok request_data =>
      match env.get_similarity_data request_data with
      | Except.error msg => (Except.error (SeerCallError.client_error msg), [request_data])
      | Except.ok seer_results =>
          (Except.ok
            ({ results := seer_results
               similarity_model_version := env.similarity_model_version },
             match seer_results with
             | [] => none
             | best :: _ => env.group_by_id best.parent_group_id),
           [request_data])

/-- Everything observable about one `maybe_check_seer_for_matching_group` run:
the returned group, the (possibly updated) event, the metrics emitted, the
exceptions captured by `sentry_sdk.capture_exception`, the requests sent to
Seer, and the rate-limit counters afterwards. -/
structure ResolveOutcome where
  matched_group : Option Group
  event : Event
  metrics : List MetricCounter
  captured : List SeerCallError
  seer_requests : List SimilarIssuesEmbeddingsRequest
  counters : Counters
deriving Repr, DecidableEq

/-- `maybe_check_seer_for_matching_group`: run the gate; when it allows, emit
the `call_made=true, blocker="none"` counter, call Seer, and on success write
the response metadata onto the event; any exception from the call is captured
and converted to "no match". -/
def maybe_check_seer_for_matching_group (env : Env) (e : Event) (ph : CalculatedHashes)
    (ctrs : Counters) : ResolveOutcome :=
  let gate := should_call_seer_for_grouping env e ph ctrs
  if gate.1 then
    let callMetric : MetricCounter :=
      { name := "grouping.similarity.did_call_seer",
        call_made := some true, blocker := some "none" }
    let call := get_seer_similar_issues env e ph 1
    match call.1 with
    | Except.ok (seer_response_data, seer_matched_group) =>
        { matched_group := seer_matched_group
          event := { e with seer_similarity := some seer_response_data }
          metrics := gate.2.1 ++ [callMetric]
          captured := []
          seer_requests := call.2
          counters := gate.2.2 }
    | Except.error err =>
        { matched_group := none
          event := e
          metrics := gate.2.1 ++ [callMetric]
          captured := [err]
          seer_requests := call.2
          counters := gate.2.2 }
  else
    { matched_group := none
      event := e
      metrics := gate.2.1
      captured := []
      seer_requests := []
      counters := gate.2.2 }

/-- The fingerprint-customization rule exactly as the specification words it:
sentinel alone means not customized; sentinel alongside other tokens means
customized with blocker "hybrid-fingerprint"; otherwise a "custom-fingerprint"
or "built-in-fingerprint" variant means customized with that variant's type as
blocker; otherwise not customized. -/
def customizedPerSpec (e : Event) (ph : CalculatedHashes) : Bool × Option String :=
  if defaultSentinel ∈ e.fingerprint then
    if e.fingerprint = [defaultSentinel] then (false, none)
    else (true, some "hybrid-fingerprint")
  else
    match (dictGet ph.variants "custom-fingerprint").orElse
        (fun _ => dictGet ph.variants "built-in-fingerprint") with
    | some fingerprint_variant => (true, some fingerprint_variant.type)
    | none => (false, none)

/-- The spec's tag contract for one emitted counter: whenever a `blocker` tag
is present it is drawn from the fixed vocabulary (with variant types taken
from the event's own variant map), and `call_made` is `true` exactly when the
blocker is "none". -/
def metricBlockerOk (ph : CalculatedHashes) (m : MetricCounter) : Prop :=
  ∀ b, m.blocker = some b →
    ((b = "none" ∨ b = "hybrid-fingerprint" ∨ b = "global-rate-limit" ∨
      b = "project-rate-limit" ∨ b = "circuit-breaker" ∨
      ∃ p ∈ ph.variants, (p.2).type = b) ∧
     (m.call_made = some true ↔ b = "none"))

/-- A concrete variant map for witnesses. -/
def testHashes : CalculatedHashes := { hashes := ["hashA"], variants := [] }

/-- A concrete event for witnesses. -/
def testEvent : Event :=
  { event_id := "ev1", project_id := 7, title := "t",
    fingerprint := [], exception_types := [], seer_similarity := none }

/-- The spec's example candidate list: ids 5 and 9, best first. -/
def testCandidates : List SimilarIssueData :=
  [{ parent_group_id := 5, score := 1 }, { parent_group_id := 9, score := 4 }]

/-- A concrete environment in which every gate check passes and the Seer
client succeeds with `testCandidates`. -/
def testEnvBase : Env :=
  { has_seer_grouping_flag := fun _ => true
    backfill_completed := fun _ => false
    content_is_seer_eligible := fun _ => true
    killswitch_enabled := fun _ _ => false
    circuit_allows_request := true
    global_ratelimit := { limit := 30, window := 60 }
    per_project_ratelimit := { limit := 5, window := 60 }
    is_limited_decision := fun _ _ _ => false
    get_similarity_data := fun _ => Except.ok testCandidates
    group_by_id := fun n => some { id := n }
    stacktrace_from_variants := fun _ => "stack"
    similarity_model_version := "v0" }

/-- `testEnvBase` with a Seer client that always raises. -/
def testEnvErr : Env :=
  { testEnvBase with get_similarity_data := fun _ => Except.error "boom" }

/-- `testEnvBase` with similarity grouping disabled for every project. -/
def testEnvOff : Env :=
  { testEnvBase with has_seer_grouping_flag := fun _ => false }

/-- `testEnvBase` with the global rate-limit scope reporting limited. -/
def testEnvLimited : Env :=
  { testEnvBase with is_limited_decision := fun key _ _ => key == globalLimitKey }

/-- The request the module builds for `testEnvBase`/`testEvent`/`testHashes`. -/
def testRequest : SimilarIssuesEmbeddingsRequest :=
  { event_id := "ev1", hash := "hashA", project_id := 7, stacktrace := "stack",
    message := "t", exception_type := none, k := 1, referrer := "ingest" }

theorem mem_length_one {α : Type} (l : List α) (a : α) (hm : a ∈ l)
    (h1 : l.length = 1) : l = [a] := by
  cases l with
  | nil => cases hm
  | cons b t =>
    cases t with
    | nil =>
      simp only [List.mem_singleton] at hm
      rw [hm]
    | cons c u => simp at h1

theorem dictGet_mem (l : List (String × FingerprintVariant)) (key : String)
    (v : FingerprintVariant) (h : dictGet l key = some v) : (key, v) ∈ l := by
  induction l with
  | nil => simp [dictGet] at h
  | cons p rest ih =>
    obtain ⟨k, w⟩ := p
    rw [dictGet] at h
    by_cases hk : k = key
    · subst hk
      rw [if_pos rfl] at h
      obtain rfl := Option.some.inj h
      exact List.mem_cons_self _ _
    · rw [if_neg hk] at h
      exact List.mem_cons_of_mem _ (ih h)

/-- C2: the fingerprint classifier implements exactly the specification's case
analysis — sentinel alone means not customized; sentinel plus other tokens
means customized with blocker "hybrid-fingerprint"; otherwise a
"custom-fingerprint" or "built-in-fingerprint" variant means customized with
that variant's type as blocker; otherwise not customized — where reporting a
blocker means emitting the `did_call_seer` counter with that blocker tag. -/
theorem fingerprint_classifier_matches_spec (e : Event) (ph : CalculatedHashes) :
    (has_customized_fingerprint e ph).1 = (customizedPerSpec e ph).1 ∧
    (has_customized_fingerprint e ph).2 =
      (match (customizedPerSpec e ph).2 with
       | some b =>
           [{ name := "grouping.similarity.did_call_seer",
              call_made := some false, blocker := some b }]
       | none => []) := by
  unfold has_customized_fingerprint customizedPerSpec
  by_cases hm : defaultSentinel ∈ e.fingerprint
  · by_cases h1 : e.fingerprint.length = 1
    · have he : e.fingerprint = [defaultSentinel] := mem_length_one _ _ hm h1
      simp [hm, h1, he]
    · have he : e.fingerprint ≠ [defaultSentinel] := by
        intro hc
        rw [hc] at h1
        simp at h1
      simp [hm, h1, he]
  · cases hv : (dictGet ph.variants "custom-fingerprint").orElse
        (fun _ => dictGet ph.variants "built-in-fingerprint") with
    | none => simp [hm, hv]
    | some v => simp [hm, hv]

/-- C1: the gate allows the Seer call exactly when all six checks pass
(enablement, uncustomized fingerprint, content eligibility, inactive
killswitch, closed circuit breaker, rate limits not exceeded); whenever one of
the first five checks blocks, the rate-limit counters are untouched (the
rate-limit check, whose side effect advances them, runs last); a failed
enablement check short-circuits everything, and an active killswitch
short-circuits the circuit breaker and the rate limiter. -/
theorem gate_allows_iff_all_checks_pass (env : Env) (e : Event)
    (ph : CalculatedHashes) (ctrs : Counters) :
    ((should_call_seer_for_grouping env e ph ctrs).1 = true ↔
      (project_has_similarity_grouping_enabled env e.project_id = true ∧
       (has_customized_fingerprint e ph).1 = false ∧
       env.content_is_seer_eligible e = true ∧
       env.killswitch_enabled e.project_id e = false ∧
       (circuit_breaker_broken env e).1 = false ∧
       (ratelimiting_enabled env e ctrs).1 = false)) ∧
    ((project_has_similarity_grouping_enabled env e.project_id = false ∨
      (has_customized_fingerprint e ph).1 = true ∨
      env.content_is_seer_eligible e = false ∨
      env.killswitch_enabled e.project_id e = true ∨
      (circuit_breaker_broken env e).1 = true) →
      (should_call_seer_for_grouping env e ph ctrs).2.2 = ctrs) ∧
    (project_has_similarity_grouping_enabled env e.project_id = false →
      should_call_seer_for_grouping env e ph ctrs = (false, [], ctrs)) ∧
    (project_has_similarity_grouping_enabled env e.project_id = true →
      (has_customized_fingerprint e ph).1 = false →
      env.content_is_seer_eligible e = true →
      env.killswitch_enabled e.project_id e = true →
      should_call_seer_for_grouping env e ph ctrs =
        (false, (has_customized_fingerprint e ph).2, ctrs)) := by
  unfold should_call_seer_for_grouping
  by_cases hflag : project_has_similarity_grouping_enabled env e.project_id = true
  · by_cases hfp : (has_customized_fingerprint e ph).1 = true
    · simp [hflag, hfp]
    · by_cases helig : env.content_is_seer_eligible e = true
      · by_cases hks : env.killswitch_enabled e.project_id e = true
        · simp [hflag, hfp, helig, hks]
        · by_cases hcb : (circuit_breaker_broken env e).1 = true
          · simp [hflag, hfp, helig, hks, hcb]
          · by_cases hrl : (ratelimiting_enabled env e ctrs).1 = true
            · simp [hflag, hfp, helig, hks, hcb, hrl]
            · simp [hflag, hfp, helig, hks, hcb, hrl]
      · simp [hflag, hfp, helig]
  · simp [hflag]

theorem gssi_requests (env : Env) (e : Event) (ph : CalculatedHashes) (k : Nat)
    (req : SimilarIssuesEmbeddingsRequest)
    (hreq : build_similar_issues_request env e ph k = Except.ok req) :
    (get_seer_similar_issues env e ph k).2 = [req] := by
  unfold get_seer_similar_issues
  rw [hreq]
  cases hr : env.get_similarity_data req <;> simp [hr]

/-- C3: whenever the gate allows and the Seer client succeeds with a candidate
list (possibly empty), the event's `seer_similarity` metadata is set to exactly
the full candidate list in the order received plus the fixed model-version tag,
and the returned group is the store lookup of the first candidate's
`parent_group_id` (none when the list is empty, and none on a lookup miss). -/
theorem seer_success_path (env : Env) (e : Event) (ph : CalculatedHashes)
    (ctrs : Counters) (req : SimilarIssuesEmbeddingsRequest)
    (results : List SimilarIssueData)
    (hgate : (should_call_seer_for_grouping env e ph ctrs).1 = true)
    (hreq : build_similar_issues_request env e ph 1 = Except.ok req)
    (hres : env.get_similarity_data req = Except.ok results) :
    ((maybe_check_seer_for_matching_group env e ph ctrs).event).seer_similarity =
      some { results := results,
             similarity_model_version := env.similarity_model_version } ∧
    (maybe_check_seer_for_matching_group env e ph ctrs).matched_group =
      (match results with
       | [] => none
       | best :: _ => env.group_by_id best.parent_group_id) := by
  cases results with
  | nil =>
    have hcall : (get_seer_similar_issues env e ph 1).1 =
        Except.ok
          ({ results := [],
             similarity_model_version := env.similarity_model_version }, none) := by
      unfold get_seer_similar_issues
      rw [hreq]
      simp [hres]
    unfold maybe_check_seer_for_matching_group
    simp [hgate, hcall]
  | cons best tail =>
    have hcall : (get_seer_similar_issues env e ph 1).1 =
        Except.ok
          ({ results := best :: tail,
             similarity_model_version := env.similarity_model_version },
           env.group_by_id best.parent_group_id) := by
      unfold get_seer_similar_issues
      rw [hreq]
      simp [hres]
    unfold maybe_check_seer_for_matching_group
    simp [hgate, hcall]

/-- C3 witness: the spec's own example — candidates with parent group ids 5
and 9, best first — is written to metadata in order and the group with id 5 is
returned. -/
theorem seer_success_path_witness :
    ((maybe_check_seer_for_matching_group testEnvBase testEvent testHashes []).event).seer_similarity =
      some { results := testCandidates, similarity_model_version := "v0" } ∧
    (maybe_check_seer_for_matching_group testEnvBase testEvent testHashes []).matched_group =
      some { id := 5 } :=
  seer_success_path testEnvBase testEvent testHashes [] testRequest testCandidates
    rfl rfl rfl

/-- C4: when the gate allows but the Seer call raises, the exception is caught
(never re-raised), reported to the error channel, the return value is none,
and the event — its similarity metadata in particular — is left unchanged. -/
theorem client_failure_caught_and_reported (env : Env) (e : Event)
    (ph : CalculatedHashes) (ctrs : Counters) (err : SeerCallError)
    (hgate : (should_call_seer_for_grouping env e ph ctrs).1 = true)
    (herr : (get_seer_similar_issues env e ph 1).1 = Except.error err) :
    (maybe_check_seer_for_matching_group env e ph ctrs).matched_group = none ∧
    (maybe_check_seer_for_matching_group env e ph ctrs).event = e ∧
    (maybe_check_seer_for_matching_group env e ph ctrs).captured = [err] := by
  unfold maybe_check_seer_for_matching_group
  simp [hgate, herr]

/-- C4 witness: a client that raises "boom" yields no group, an unchanged
event, and the exception reported. -/
theorem client_failure_caught_witness :
    (maybe_check_seer_for_matching_group testEnvErr testEvent testHashes []).matched_group = none ∧
    (maybe_check_seer_for_matching_group testEnvErr testEvent testHashes []).event = testEvent ∧
    (maybe_check_seer_for_matching_group testEnvErr testEvent testHashes []).captured =
      [SeerCallError.client_error "boom"] :=
  client_failure_caught_and_reported testEnvErr testEvent testHashes []
    (SeerCallError.client_error "boom") rfl rfl

/-- C5: when the gate blocks, the resolver returns none, sends no request to
Seer, captures nothing, leaves the event untouched, and carries over exactly
the gate's own metrics and counters. -/
theorem blocked_gate_no_call_no_write (env : Env) (e : Event)
    (ph : CalculatedHashes) (ctrs : Counters)
    (hgate : (should_call_seer_for_grouping env e ph ctrs).1 = false) :
    maybe_check_seer_for_matching_group env e ph ctrs =
      { matched_group := none
        event := e
        metrics := (should_call_seer_for_grouping env e ph ctrs).2.1
        captured := []
        seer_requests := []
        counters := (should_call_seer_for_grouping env e ph ctrs).2.2 } := by
  unfold maybe_check_seer_for_matching_group
  simp [hgate]

/-- C5 witness: with similarity grouping disabled the resolver is a no-op
apart from the gate's own bookkeeping. -/
theorem blocked_gate_witness :
    maybe_check_seer_for_matching_group testEnvOff testEvent testHashes [] =
      { matched_group := none
        event := testEvent
        metrics := (should_call_seer_for_grouping testEnvOff testEvent testHashes []).2.1
        captured := []
        seer_requests := []
        counters := (should_call_seer_for_grouping testEnvOff testEvent testHashes []).2.2 } :=
  blocked_gate_no_call_no_write testEnvOff testEvent testHashes [] rfl

/-- C6: the global rate-limit scope is consulted first, against the incoming
counters; whenever it reports limited, the check reports limited and the only
counter advanced is the global one — the per-project limiter is never invoked. -/
theorem global_limit_short_circuits_project_limit (env : Env) (e : Event)
    (ctrs : Counters)
    (hglobal : env.is_limited_decision globalLimitKey env.global_ratelimit
      (getCount ctrs globalLimitKey) = true) :
    (ratelimiting_enabled env e ctrs).1 = true ∧
    (ratelimiting_enabled env e ctrs).2.2 = bumpCount ctrs globalLimitKey := by
  unfold ratelimiting_enabled
  simp [is_limited, hglobal]

/-- C6 witness: in an environment whose global scope is limited, the check is
limited and only the global counter has advanced. -/
theorem global_limit_short_circuit_witness :
    (ratelimiting_enabled testEnvLimited testEvent []).1 = true ∧
    (ratelimiting_enabled testEnvLimited testEvent []).2.2 =
      bumpCount [] globalLimitKey :=
  global_limit_short_circuits_project_limit testEnvLimited testEvent [] rfl

/-- C7: for a non-empty hash list the request sent to Seer consists of exactly
the event id, the first grouping hash, the project id, the stacktrace string
rendered from the grouping variants, the title with null bytes stripped, the
top-level exception type when present, the neighbor count k, and the fixed
referrer "ingest" — and that exact request is the one handed to the client. -/
theorem request_fields_exact (env : Env) (e : Event) (ph : CalculatedHashes)
    (num_neighbors : Nat) (h : String) (rest : List String)
    (hh : ph.hashes = h :: rest) :
    build_similar_issues_request env e ph num_neighbors = Except.ok
      { event_id := e.event_id
        hash := h
        project_id := e.project_id
        stacktrace := env.stacktrace_from_variants ph.variants
        message := filter_null_from_event_title e.title
        exception_type := get_exception_type e
        k := num_neighbors
        referrer := "ingest" } ∧
    (get_seer_similar_issues env e ph num_neighbors).2 =
      [{ event_id := e.event_id
         hash := h
         project_id := e.project_id
         stacktrace := env.stacktrace_from_variants ph.variants
         message := filter_null_from_event_title e.title
         exception_type := get_exception_type e
         k := num_neighbors
         referrer := "ingest" }] := by
  have hb : build_similar_issues_request env e ph num_neighbors = Except.ok
      { event_id := e.event_id
        hash := h
        project_id := e.project_id
        stacktrace := env.stacktrace_from_variants ph.variants
        message := filter_null_from_event_title e.title
        exception_type := get_exception_type e
        k := num_neighbors
        referrer := "ingest" } := by
    unfold build_similar_issues_request
    rw [hh]
  exact ⟨hb, gssi_requests env e ph num_neighbors _ hb⟩

/-- C7 witness: the concrete request built for the test fixtures. -/
theorem request_fields_exact_witness :
    build_similar_issues_request testEnvBase testEvent testHashes 1 =
      Except.ok testRequest ∧
    (get_seer_similar_issues testEnvBase testEvent testHashes 1).2 =
      [testRequest] :=
  request_fields_exact testEnvBase testEvent testHashes 1 "hashA" [] rfl

theorem metricOk_of (ph : CalculatedHashes) (nm : String) (cm : Option Bool)
    (b : String)
    (hvocab : b = "none" ∨ b = "hybrid-fingerprint" ∨ b = "global-rate-limit" ∨
      b = "project-rate-limit" ∨ b = "circuit-breaker" ∨
      ∃ p ∈ ph.variants, (p.2).type = b)
    (hpair : cm = some true ↔ b = "none") :
    metricBlockerOk ph { name := nm, call_made := cm, blocker := some b } := by
  intro b' hb'
  obtain rfl := Option.some.inj hb'
  exact ⟨hvocab, hpair⟩

theorem metricOk_noBlocker (ph : CalculatedHashes) (nm : String)
    (cm : Option Bool) :
    metricBlockerOk ph { name := nm, call_made := cm, blocker := none } := by
  intro b hb
  exact Option.noConfusion hb

theorem dictGet_orElse_cases (l : List (String × FingerprintVariant))
    (k1 k2 : String) (v : FingerprintVariant)
    (h : (dictGet l k1).orElse (fun _ => dictGet l k2) = some v) :
    dictGet l k1 = some v ∨ dictGet l k2 = some v := by
  cases h1 : dictGet l k1 with
  | some w =>
    rw [h1] at h
    simp [Option.orElse] at h
    left
    exact congrArg some h
  | none =>
    rw [h1] at h
    simp [Option.orElse] at h
    right
    exact h

theorem hcf_metrics_ok (e : Event) (ph : CalculatedHashes)
    (hv : ∀ p ∈ ph.variants, (p.2 : FingerprintVariant).type ≠ "none") :
    ∀ m ∈ (has_customized_fingerprint e ph).2, metricBlockerOk ph m := by
  intro m hm
  unfold has_customized_fingerprint at hm
  by_cases hmem : defaultSentinel ∈ e.fingerprint
  · by_cases h1 : e.fingerprint.length = 1
    · simp [hmem, h1] at hm
    · simp [hmem, h1] at hm
      subst hm
      exact metricOk_of ph _ _ _ (Or.inr (Or.inl rfl)) (by decide)
  · cases hvar : (dictGet ph.variants "custom-fingerprint").orElse
        (fun _ => dictGet ph.variants "built-in-fingerprint") with
    | none => simp [hmem, hvar] at hm
    | some v =>
      simp [hmem, hvar] at hm
      subst hm
      obtain hget | hget := dictGet_orElse_cases _ _ _ _ hvar
      · have hpm := dictGet_mem _ _ _ hget
        exact metricOk_of ph _ _ _
          (Or.inr (Or.inr (Or.inr (Or.inr (Or.inr ⟨_, hpm, rfl⟩)))))
          (Iff.intro (fun hft => Option.noConfusion hft (fun hft => Bool.noConfusion hft))
            (fun hnone => absurd hnone (hv _ hpm)))
      · have hpm := dictGet_mem _ _ _ hget
        exact metricOk_of ph _ _ _
          (Or.inr (Or.inr (Or.inr (Or.inr (Or.inr ⟨_, hpm, rfl⟩)))))
          (Iff.intro (fun hft => Option.noConfusion hft (fun hft => Bool.noConfusion hft))
            (fun hnone => absurd hnone (hv _ hpm)))

theorem cbb_metrics_ok (env : Env) (e : Event) (ph : CalculatedHashes) :
    ∀ m ∈ (circuit_breaker_broken env e).2, metricBlockerOk ph m := by
  intro m hm
  unfold circuit_breaker_broken at hm
  by_cases hc : env.circuit_allows_request = true
  · simp [hc] at hm
  · simp [hc] at hm
    rcases hm with rfl | rfl
    · exact metricOk_noBlocker ph _ _
    · exact metricOk_of ph _ _ _ (Or.inr (Or.inr (Or.inr (Or.inr (Or.inl rfl)))))
        (by decide)

theorem rl_metrics_ok (env : Env) (e : Event) (ph : CalculatedHashes)
    (ctrs : Counters) :
    ∀ m ∈ (ratelimiting_enabled env e ctrs).2.1, metricBlockerOk ph m := by
  intro m hm
  unfold ratelimiting_enabled at hm
  by_cases hg : (is_limited env globalLimitKey env.global_ratelimit ctrs).1 = true
  · simp [hg] at hm
    rcases hm with rfl | rfl
    · exact metricOk_noBlocker ph _ _
    · exact metricOk_of ph _ _ _ (Or.inr (Or.inr (Or.inl rfl))) (by decide)
  · by_cases hp : (is_limited env (projectLimitKey e.project_id)
        env.per_project_ratelimit
        (is_limited env globalLimitKey env.global_ratelimit ctrs).2).1 = true
    · simp [hg, hp] at hm
      rcases hm with rfl | rfl
      · exact metricOk_noBlocker ph _ _
      · exact metricOk_of ph _ _ _ (Or.inr (Or.inr (Or.inr (Or.inl rfl)))) (by decide)
    · simp [hg, hp] at hm

theorem gate_metrics_ok (env : Env) (e : Event) (ph : CalculatedHashes)
    (ctrs : Counters)
    (hv : ∀ p ∈ ph.variants, (p.2 : FingerprintVariant).type ≠ "none") :
    ∀ m ∈ (should_call_seer_for_grouping env e ph ctrs).2.1, metricBlockerOk ph m := by
  intro m hm
  have hfp := hcf_metrics_ok e ph hv
  have hcb := cbb_metrics_ok env e ph
  have hrl := rl_metrics_ok env e ph ctrs
  unfold should_call_seer_for_grouping at hm
  by_cases h1 : project_has_similarity_grouping_enabled env e.project_id = true
  · by_cases h2 : (has_customized_fingerprint e ph).1 = true
    · simp only [h1, if_true, h2, if_pos] at hm
      exact hfp m hm
    · by_cases h3 : env.content_is_seer_eligible e = true
      · by_cases h4 : env.killswitch_enabled e.project_id e = true
        · simp [h1, h2, h3, h4] at hm
          exact hfp m hm
        · by_cases h5 : (circuit_breaker_broken env e).1 = true
          · simp [h1, h2, h3, h4, h5] at hm
            rcases hm with hm | hm
            · exact hfp m hm
            · exact hcb m hm
          · by_cases h6 : (ratelimiting_enabled env e ctrs).1 = true
            · simp [h1, h2, h3, h4, h5, h6] at hm
              rcases hm with hm | hm | hm
              · exact hfp m hm
              · exact hcb m hm
              · exact hrl m hm
            · simp [h1, h2, h3, h4, h5, h6] at hm
              rcases hm with hm | hm | hm
              · exact hfp m hm
              · exact hcb m hm
              · exact hrl m hm
      · simp [h1, h2, h3] at hm
        exact hfp m hm
  · simp [h1] at hm

/-- C8: every counter the subsystem emits during one resolve run that carries
a blocker tag draws it from the fixed vocabulary — "none",
"hybrid-fingerprint", a fingerprint-variant type from the event's variant map,
"global-rate-limit", "project-rate-limit", "circuit-breaker" — and carries
`call_made = true` exactly when the blocker is "none" (given that no variant
uses the reserved type "none", which the real variant types never do). -/
theorem blocker_tag_vocabulary_invariant (env : Env) (e : Event)
    (ph : CalculatedHashes) (ctrs : Counters)
    (hv : ∀ p ∈ ph.variants, (p.2 : FingerprintVariant).type ≠ "none") :
    ∀ m ∈ (maybe_check_seer_for_matching_group env e ph ctrs).metrics,
      metricBlockerOk ph m := by
  intro m hm
  have hgate := gate_metrics_ok env e ph ctrs hv
  unfold maybe_check_seer_for_matching_group at hm
  by_cases hg : (should_call_seer_for_grouping env e ph ctrs).1 = true
  · cases hc : (get_seer_similar_issues env e ph 1).1 with
    | ok val =>
      obtain ⟨md, grp⟩ := val
      simp [hg, hc] at hm
      rcases hm with hm | rfl
      · exact hgate m hm
      · exact metricOk_of ph _ _ _ (Or.inl rfl) (by decide)
    | error err =>
      simp [hg, hc] at hm
      rcases hm with hm | rfl
      · exact hgate m hm
      · exact metricOk_of ph _ _ _ (Or.inl rfl) (by decide)
  · simp [hg] at hm
    exact hgate m hm

/-- C8 witness: the gate-pass counter emitted in the test environment is in
the vocabulary and paired correctly. -/
theorem blocker_tag_vocabulary_witness :
    metricBlockerOk testHashes
      { name := "grouping.similarity.did_call_seer",
        call_made := some true, blocker := some "none" } :=
  blocker_tag_vocabulary_invariant testEnvBase testEvent testHashes []
    (by simp [testHashes]) _ (by decide)

/-- C9: the resolver is deterministic — two runs on identical inputs produce
identical outcomes (group, event metadata, metrics, captured errors, requests,
counters) — and a single run writes at most once to the event, touching only
its similarity-metadata field, and issues at most one request to Seer. -/
theorem resolve_deterministic_single_write (env : Env) (e : Event)
    (ph : CalculatedHashes) (ctrs : Counters) :
    maybe_check_seer_for_matching_group env e ph ctrs =
      maybe_check_seer_for_matching_group env e ph ctrs ∧
    ((maybe_check_seer_for_matching_group env e ph ctrs).event = e ∨
      ∃ md, (maybe_check_seer_for_matching_group env e ph ctrs).event =
        { e with seer_similarity := some md }) ∧
    (maybe_check_seer_for_matching_group env e ph ctrs).seer_requests.length ≤ 1 := by
  refine ⟨rfl, ?_, ?_⟩
  · unfold maybe_check_seer_for_matching_group
    by_cases hg : (should_call_seer_for_grouping env e ph ctrs).1 = true
    · cases hc : (get_seer_similar_issues env e ph 1).1 with
      | ok val =>
        obtain ⟨md, grp⟩ := val
        simp [hg, hc]
      | error err => simp [hg, hc]
    · simp [hg]
  · unfold maybe_check_seer_for_matching_group
    by_cases hg : (should_call_seer_for_grouping env e ph ctrs).1 = true
    · have hlen : (get_seer_similar_issues env e ph 1).2.length ≤ 1 := by
        unfold get_seer_similar_issues
        cases hb : build_similar_issues_request env e ph 1 with
        | error err => simp
        | ok req =>
          cases hr : env.get_similarity_data req <;> simp [hr]
      cases hc : (get_seer_similar_issues env e ph 1).1 with
      | ok val =>
        obtain ⟨md, grp⟩ := val
        simp [hg, hc]
        exact hlen
      | error err =>
        simp [hg, hc]
        exact hlen
    · simp [hg]

/-- C10: the Seer request builder indexes the first grouping hash
unconditionally, so a non-empty hash list is its implicit precondition: under
it the request always builds (the index-out-of-range branch is unreachable,
also through `get_seer_similar_issues`), and on an empty hash list the index
error is exactly what the call raises. -/
theorem first_hash_access_safe_iff_nonempty (env : Env) (e : Event)
    (ph : CalculatedHashes) (k : Nat) :
    (ph.hashes ≠ [] →
      ∃ req, build_similar_issues_request env e ph k = Except.ok req) ∧
    (ph.hashes = [] →
      build_similar_issues_request env e ph k =
        Except.error SeerCallError.index_error) ∧
    (ph.hashes ≠ [] →
      (get_seer_similar_issues env e ph k).1 ≠
        Except.error SeerCallError.index_error) := by
  refine ⟨?_, ?_, ?_⟩
  · intro hne
    cases hh : ph.hashes with
    | nil => exact absurd hh hne
    | cons h t =>
      exact ⟨_, by unfold build_similar_issues_request; rw [hh]⟩
  · intro hnil
    unfold build_similar_issues_request
    rw [hnil]
  · intro hne
    obtain ⟨req, hb⟩ : ∃ req,
        build_similar_issues_request env e ph k = Except.ok req := by
      cases hh : ph.hashes with
      | nil => exact absurd hh hne
      | cons h t =>
        exact ⟨_, by unfold build_similar_issues_request; rw [hh]⟩
    unfold get_seer_similar_issues
    rw [hb]
    cases hr : env.get_similarity_data req <;> simp [hr]

end Seer
